import Mathlib

/-!
# Verification of the pre-patch workflow engine

Shallow embedding of the patching repository's core:
the AMI-backup lifecycle (`src/core/models/ami_backup.py`,
`src/core/services/ami_backup_service.py`), the server power-state
operations (`src/core/models/server_operation.py`,
`src/core/services/server_manager_service.py`), and the workflow
orchestrator (`src/core/models/workflow.py`,
`src/core/services/workflow_orchestrator.py`).

Modelling conventions:
* Python `datetime` instants are abstract clock ticks (`Nat`, seconds);
  the `strftime` renderings that only feed generated names are abstracted
  by `strftimeCompact`/`strftimeHuman`/`strftimeDate`.
* Python `float` progress percentages are modelled as `ℚ` (no claim
  concerns float rounding).
* External AWS calls are oracles: each `describe`/`create` call consumes a
  response value describing what the call would have returned or whether it
  raised.
* Python exceptions are explicit: fallible flows return `Except String α`
  (exception text in the error) or `PyOutcome α`.
* Python's dynamic attribute/keyword semantics are embedded where the code
  exercises them: each dataclass's field list and each class's method list
  are transcribed from the source, and a constructor call with unexpected
  keyword arguments, or an attribute access that misses, evaluates to the
  `TypeError`/`AttributeError` the interpreter raises.
-/

set_option linter.unusedVariables false

namespace Patching

/-! ## Backup data model — `src/core/models/ami_backup.py` -/

/-- Embeds `BackupStatus` enum (ami_backup.py lines 10–18). -/
inductive BackupStatus
  | pending
  | creating
  | available
  | failed
  | cancelled
  | deregistered
  | error
deriving DecidableEq, Repr

/-- Embeds `BackupType` enum (ami_backup.py lines 21–27). -/
inductive BackupType
  | manual
  | scheduled
  | prePatch
  | postPatch
  | emergency
deriving DecidableEq, Repr

/-- Embeds `.value` string of a `BackupType`. -/
def BackupType.value : BackupType → String
  | .manual => "manual"
  | .scheduled => "scheduled"
  | .prePatch => "pre_patch"
  | .postPatch => "post_patch"
  | .emergency => "emergency"

/-- Embeds `BackupConfiguration` dataclass (ami_backup.py lines 31–57), the fields
the embedded flows read.  Notification fields are carried for completeness. -/
structure BackupConfiguration where
  noReboot : Bool := true
  includeAllVolumes : Bool := true
  copyTags : Bool := true
  descriptionTemplate : String := "Pre-patch backup for {instance_id} - {timestamp}"
  retentionDays : Nat := 30
  maxBackupsPerInstance : Nat := 5
  additionalTags : List (String × String) := []
  timeoutMinutes : Nat := 60
  retryAttempts : Nat := 2
  retryDelayMinutes : Nat := 5
  notifyOnCompletion : Bool := false
  notifyOnFailure : Bool := true
deriving DecidableEq, Repr

/-- Abstraction of `created_time.strftime("%Y%m%d-%H%M%S")`. -/
def strftimeCompact (t : Nat) : String := toString t

/-- Abstraction of `created_time.strftime("%Y-%m-%d %H:%M:%S")`. -/
def strftimeHuman (t : Nat) : String := toString t

/-- Abstraction of `created_time.strftime("%Y-%m-%d")`. -/
def strftimeDate (t : Nat) : String := toString t

/-- Embeds `str.format(instance_id=…, timestamp=…)` specialised to the two
placeholders the backup description template uses. -/
def formatTemplate (tmpl instanceId timestamp : String) : String :=
  ((tmpl.replace "{instance_id}" instanceId).replace "{timestamp}" timestamp)

/-- Embeds `AMIBackup` dataclass (ami_backup.py lines 84–143): the fields touched by
the embedded operations. -/
structure AMIBackup where
  backupId : String
  amiId : Option String := none
  amiName : Option String := none
  instanceId : String := ""
  sourceAmiId : Option String := none
  backupType : BackupType := .prePatch
  description : String := ""
  status : BackupStatus := .pending
  createdTime : Nat
  startTime : Option Nat := none
  completionTime : Option Nat := none
  configuration : BackupConfiguration := {}
  region : String := ""
  accountId : String := ""
  landingZone : String := ""
  platform : Option String := none
  tags : List (String × String) := []
  errorMessage : Option String := none
  errorCode : Option String := none
  progressPercentage : ℚ := 0
  currentStep : String := "pending"
  snapshotIds : List String := []
deriving DecidableEq, Repr

/-- Truthiness of an optional string (Python `if not x` on `Optional[str]`). -/
def optStrFalsy : Option String → Bool
  | none => true
  | some s => s = ""

/-- Insert a key unless present (`if key not in self.tags: self.tags[key] = value`). -/
def tagsInsertIfAbsent (ts : List (String × String)) (kv : String × String) :
    List (String × String) :=
  if ts.any (fun p => p.1 = kv.1) then ts else ts ++ [kv]

/-- Embeds `dict.update` for one key: replace in place or append. -/
def tagsUpdate (ts : List (String × String)) (kv : String × String) :
    List (String × String) :=
  if ts.any (fun p => p.1 = kv.1) then
    ts.map (fun p => if p.1 = kv.1 then kv else p)
  else ts ++ [kv]

/-- Embeds `AMIBackup.__post_init__` (ami_backup.py lines 145–179): raises
`ValueError("instance_id is required")` on an empty instance id, then fills
the generated AMI name, the description, and the default/merged tags. -/
def amiBackupPostInit (b : AMIBackup) : Except String AMIBackup :=
  if b.instanceId = "" then .error "instance_id is required"
  else
    let genName := "prepatch-backup-" ++ b.instanceId ++ "-" ++ strftimeCompact b.createdTime
    let b1 :=
      if optStrFalsy b.amiName then { b with amiName := some genName } else b
    let genDescr := formatTemplate b1.configuration.descriptionTemplate b1.instanceId
      (strftimeHuman b1.createdTime)
    let b2 :=
      if b1.description = "" then { b1 with description := genDescr } else b1
    let defaults : List (String × String) :=
      [("Name", b2.amiName.getD ""),
       ("SourceInstanceId", b2.instanceId),
       ("BackupType", b2.backupType.value),
       ("CreatedBy", "PrePatchWorkflow"),
       ("CreatedDate", strftimeDate b2.createdTime),
       ("Purpose", "PrePatchBackup")]
    let ts := defaults.foldl tagsInsertIfAbsent b2.tags
    let ts := b2.configuration.additionalTags.foldl tagsUpdate ts
    .ok { b2 with tags := ts }

/-- Embeds `AMIBackup.mark_started` (ami_backup.py lines 218–223). -/
def AMIBackup.markStarted (b : AMIBackup) (now : Nat) : AMIBackup :=
  { b with status := .creating, startTime := some now,
           currentStep := "creating_ami", progressPercentage := 10 }

/-- Embeds `AMIBackup.mark_completed` (ami_backup.py lines 225–234). -/
def AMIBackup.markCompleted (b : AMIBackup) (amiId : String)
    (snapshotIds : Option (List String)) (now : Nat) : AMIBackup :=
  { b with status := .available, amiId := some amiId,
           completionTime := some now, currentStep := "completed",
           progressPercentage := 100,
           snapshotIds := match snapshotIds with
             | some l => l
             | none => b.snapshotIds }

/-- Embeds `AMIBackup.mark_failed` (ami_backup.py lines 236–242). -/
def AMIBackup.markFailed (b : AMIBackup) (msg : String)
    (errorCode : Option String) (now : Nat) : AMIBackup :=
  { b with status := .failed, completionTime := some now,
           errorMessage := some msg, errorCode := errorCode,
           currentStep := "failed" }

/-- Embeds `AMIBackup.update_progress` (ami_backup.py lines 244–247). -/
def AMIBackup.updateProgress (b : AMIBackup) (p : ℚ) (step : String) : AMIBackup :=
  { b with progressPercentage := min 100 (max 0 p), currentStep := step }

/-- Embeds `AMIBackup.is_failed` (ami_backup.py lines 193–196). -/
def AMIBackup.isFailed (b : AMIBackup) : Bool :=
  b.status = .failed ∨ b.status = .error ∨ b.status = .cancelled

/-! ## Backup service — `src/core/services/ami_backup_service.py` -/

/-- Outcome of one external `ec2_client.describe_image` call: the call raised,
the image was not found (falsy response), or it returned a record whose
`State` field is `state`. -/
inductive DescribeImageResult
  | raises
  | notFound
  | ok (state : String)
deriving DecidableEq, Repr

/-- Python truthiness of `backup.ami_id` (`if not backup.ami_id`). -/
def AMIBackup.amiIdFalsy (b : AMIBackup) : Bool := optStrFalsy b.amiId

/-- Embeds `AMIBackupService.get_backup_status` (ami_backup_service.py lines 145–182).
Returns the (possibly mutated) backup together with the status value the
method returns.  `r` is the response of the `describe_image` call (any
exception inside the `try`, including from `configure_for_region`, is the
`raises` case, which the method catches and absorbs). -/
def getBackupStatus (b : AMIBackup) (r : DescribeImageResult) (now : Nat) :
    AMIBackup × BackupStatus :=
  if b.amiIdFalsy then (b, b.status)
  else
    match r with
    | .raises => (b, b.status)
    | .notFound =>
        if b.status = .creating then
          (b.markFailed "AMI not found in AWS" none now, .failed)
        else (b, .failed)
    | .ok s =>
        if s = "available" then
          if b.status = .available then (b, .available)
          else (b.markCompleted (b.amiId.getD "") none now, .available)
        else if s = "pending" then
          ({ b with status := .creating }, .creating)
        else if s = "failed" ∨ s = "error" then
          if b.status = .failed then (b, .failed)
          else (b.markFailed ("AMI creation failed with state: " ++ s) none now, .failed)
        else
          ({ b with status := .creating }, .creating)

/-- Embeds `AMIBackupService._update_backup_progress` (ami_backup_service.py lines
327–351): a second `describe_image` per poll that refreshes the heuristic
progress estimate (assumed total duration 20 minutes = 1200 s) and may itself
mark the backup completed or failed.  All exceptions are absorbed. -/
def updateBackupProgress (b : AMIBackup) (r : DescribeImageResult) (now : Nat) :
    AMIBackup :=
  if b.amiIdFalsy then b
  else
    match r with
    | .raises => b
    | .notFound => b
    | .ok s =>
        if s = "pending" then
          match b.startTime with
          | some st =>
              b.updateProgress (min 90 ((((now : ℚ) - (st : ℚ)) / 1200) * 90)) "creating"
          | none => b
        else if s = "available" then b.markCompleted (b.amiId.getD "") none now
        else if s = "failed" ∨ s = "error" then
          b.markFailed ("AMI creation failed with state: " ++ s) none now
        else b

/-- One iteration step of `wait_for_completion`'s polling loop
(ami_backup_service.py lines 118–138), with `fuel` the number of loop entries
remaining before `datetime.utcnow() < timeout_time` fails.  Iteration `k`
happens at clock `t0 + 30 * k` (the 30-second `check_interval` sleep is the
only time consumer).  `statusResp k`/`progResp k` are the responses of the two
`describe_image` calls of iteration `k`.  On fuel exhaustion the method marks
the backup failed with "Backup operation timed out" and returns `false`
(lines 140–143). -/
def waitCompletionLoop (statusResp progResp : Nat → DescribeImageResult) (t0 : Nat) :
    Nat → AMIBackup → Nat → AMIBackup × Bool
  | k, b, 0 => (b.markFailed "Backup operation timed out" none (t0 + 30 * k), false)
  | k, b, fuel + 1 =>
      if (getBackupStatus b (statusResp k) (t0 + 30 * k)).2 = .available then
        ((getBackupStatus b (statusResp k) (t0 + 30 * k)).1, true)
      else if (getBackupStatus b (statusResp k) (t0 + 30 * k)).2 = .failed ∨
          (getBackupStatus b (statusResp k) (t0 + 30 * k)).2 = .error ∨
          (getBackupStatus b (statusResp k) (t0 + 30 * k)).2 = .cancelled then
        ((getBackupStatus b (statusResp k) (t0 + 30 * k)).1, false)
      else waitCompletionLoop statusResp progResp t0 (k + 1)
        (updateBackupProgress (getBackupStatus b (statusResp k) (t0 + 30 * k)).1
          (progResp k) (t0 + 30 * k)) fuel

/-- Embeds `AMIBackupService.wait_for_completion` (ami_backup_service.py lines
111–143).  The deadline is `t0 + 60 * timeoutMinutes` seconds and polls occur
every 30 s, so exactly `2 * timeoutMinutes` loop entries satisfy
`now < timeout_time`. -/
def waitForCompletion (b : AMIBackup) (statusResp progResp : Nat → DescribeImageResult)
    (t0 timeoutMinutes : Nat) : AMIBackup × Bool :=
  waitCompletionLoop statusResp progResp t0 0 b (2 * timeoutMinutes)

/-! ## Instance data model — `src/core/models/instance.py` -/

/-- Embeds `Platform` enum (instance.py lines 9–12). -/
inductive Platform
  | windows
  | linux
deriving DecidableEq, Repr

/-- Embeds `.value` string of a `Platform`. -/
def Platform.value : Platform → String
  | .windows => "windows"
  | .linux => "linux"

/-- Embeds `InstanceStatus` enum (instance.py lines 15–26). -/
inductive InstanceStatus
  | running
  | stopped
  | stopping
  | starting
  | pending
  | shuttingDown
  | terminated
  | terminating
  | unknown
deriving DecidableEq, Repr

/-- Embeds `InstanceTags` (instance.py lines 39–51): the fields the embedded flows
read. -/
structure InstanceTags where
  name : Option String := none
  backupRequired : Option Bool := none
  additionalTags : List (String × String) := []
deriving DecidableEq, Repr

/-- Embeds `Instance` dataclass (instance.py lines 91–132): the fields the embedded
flows read. -/
structure Instance where
  instanceId : String
  landingZone : String
  region : String
  accountId : String
  status : InstanceStatus := .unknown
  platform : Platform := .linux
  tags : InstanceTags := {}
  amiId : Option String := none
deriving DecidableEq, Repr

/-- Embeds `Instance.__post_init__` (instance.py lines 134–142): raises
`ValueError("instance_id cannot be empty")` on an empty id, then defaults the
name tag from `additional_tags["Name"]`. -/
def instancePostInit (i : Instance) : Except String Instance :=
  if i.instanceId = "" then .error "instance_id cannot be empty"
  else
    if optStrFalsy i.tags.name then
      match i.tags.additionalTags.find? (fun p => p.1 = "Name") with
      | some p => .ok { i with tags := { i.tags with name := some p.2 } }
      | none => .ok i
    else .ok i

/-- Embeds `Instance.requires_backup` (instance.py lines 174–177):
`tags.backup_required is True`. -/
def Instance.requiresBackup (i : Instance) : Bool := i.tags.backupRequired = some true

/-! ## Backup creation — `AMIBackupService.create_backup` /
`create_multiple_backups` (ami_backup_service.py lines 25–109, 288–325) -/

/-- Outcome of the per-instance external work inside `create_backup`
(`configure_for_region` + `_execute_backup`'s `create_image` call):
the call chain raised with message `msg`, the `create_image` response carried
no `ImageId`, or it returned `amiId`. -/
inductive CreateImageResult
  | raises (msg : String)
  | noId
  | ok (amiId : String)
deriving DecidableEq, Repr

/-- Embeds `AMIBackupService.create_backup` (lines 25–58) composed with
`_execute_backup` (lines 288–325): builds the `AMIBackup` (running
`__post_init__`), marks it started, issues `create_image`, and either returns
the backup in `Creating` state carrying the AMI id, or re-raises the original
exception (`_execute_backup` marks its local backup failed before re-raising,
but that record is discarded by the caller; the missing-`ImageId` case raises
`Exception("No AMI ID returned from create_image call")`). -/
def createBackupE (i : Instance) (bt : BackupType) (cfg : BackupConfiguration)
    (r : CreateImageResult) (uid : String) (now : Nat) : Except String AMIBackup :=
  match amiBackupPostInit
      { backupId := uid, instanceId := i.instanceId, backupType := bt,
        region := i.region, accountId := i.accountId, landingZone := i.landingZone,
        sourceAmiId := i.amiId, platform := some i.platform.value,
        configuration := cfg, createdTime := now } with
  | .error e => .error e
  | .ok b =>
      match r with
      | .raises msg => .error msg
      | .noId => .error "No AMI ID returned from create_image call"
      | .ok amiId =>
          .ok (({ b.markStarted now with amiId := some amiId }).updateProgress 50 "ami_created")

/-- The synthetic failed-backup record `create_multiple_backups` builds for an
instance whose task raised (lines 89–102): a fresh `AMIBackup` (running
`__post_init__`, which itself raises if the instance id is empty) marked
failed with the exception text. -/
def syntheticFailedBackupE (i : Instance) (bt : BackupType) (msg : String)
    (uid : String) (now : Nat) : Except String AMIBackup :=
  match amiBackupPostInit
      { backupId := uid, instanceId := i.instanceId, backupType := bt,
        region := i.region, accountId := i.accountId, landingZone := i.landingZone,
        createdTime := now } with
  | .error e => .error e
  | .ok b => .ok (b.markFailed msg none now)

/-- Result processing of one gathered task in `create_multiple_backups`
(lines 88–104): a successful task contributes its backup; a raised task is
converted into the synthetic failed record. -/
def processBackupResultE (i : Instance) (bt : BackupType) (cfg : BackupConfiguration)
    (r : CreateImageResult) (uid : String) (now : Nat) : Except String AMIBackup :=
  match createBackupE i bt cfg r uid now with
  | .ok b => .ok b
  | .error msg => syntheticFailedBackupE i bt msg uid now

/-- The `asyncio.gather` fan-out of `create_multiple_backups` over the
already-filtered instance list, producing results in task order.  `oracle k`
is the external outcome for the `k`-th filtered instance and `uids k` its
generated backup id. -/
def createBackupsGather (bt : BackupType) (cfg : BackupConfiguration)
    (oracle : Nat → CreateImageResult) (uids : Nat → String) (now : Nat) :
    List Instance → Nat → Except String (List AMIBackup)
  | [], _ => .ok []
  | i :: rest, k =>
      match processBackupResultE i bt cfg (oracle k) (uids k) now with
      | .error e => .error e
      | .ok b =>
          match createBackupsGather bt cfg oracle uids now rest (k + 1) with
          | .error e => .error e
          | .ok bs => .ok (b :: bs)

/-- Embeds `AMIBackupService.create_multiple_backups` (lines 60–109): filter to the
instances with `requires_backup`, return `[]` if none remain, otherwise fan
out `create_backup` and convert per-task exceptions into synthetic failed
records.  The whole call raises only if building a synthetic record itself
raises (empty instance id). -/
def createMultipleBackups (instances : List Instance) (bt : BackupType)
    (cfg : BackupConfiguration) (oracle : Nat → CreateImageResult)
    (uids : Nat → String) (now : Nat) : Except String (List AMIBackup) :=
  let instancesToBackup := instances.filter Instance.requiresBackup
  if instancesToBackup.isEmpty then .ok []
  else createBackupsGather bt cfg oracle uids now instancesToBackup 0

/-! ## Server operation model — `src/core/models/server_operation.py` -/

/-- Embeds `OperationType` enum (server_operation.py lines 10–19). -/
inductive OperationType
  | start
  | stop
  | restart
  | reboot
  | terminate
  | healthCheck
  | validation
  | statusCheck
deriving DecidableEq, Repr

/-- Embeds `OperationStatus` enum (server_operation.py lines 22–30). -/
inductive OperationStatus
  | pending
  | running
  | completed
  | failed
  | cancelled
  | timeout
  | skipped
deriving DecidableEq, Repr

/-- Embeds `OperationPriority` enum (server_operation.py lines 33–38). -/
inductive OperationPriority
  | low
  | normal
  | high
  | critical
deriving DecidableEq, Repr

/-- The field names of the `OperationContext` dataclass, transcribed from
server_operation.py lines 42–59.  Note there is no `region`, `account_id`,
`platform`, `force` or `wait_for_ready` field. -/
def operationContextFields : List String :=
  ["workflow_id", "phase", "landing_zone", "user", "dry_run", "max_retries",
   "retry_delay", "current_retry", "timeout_seconds", "metadata"]

/-- Embeds `OperationContext` dataclass (server_operation.py lines 42–59) with its
actual fields and defaults. -/
structure OperationContextPy where
  workflowId : Option String := none
  phase : Option String := none
  landingZone : Option String := none
  user : Option String := none
  dryRun : Bool := false
  maxRetries : Nat := 3
  retryDelay : Nat := 5
  currentRetry : Nat := 0
  timeoutSeconds : Nat := 300
deriving DecidableEq, Repr

/-- Outcome of a Python expression: a value, or a raised exception carrying
its message. -/
inductive PyOutcome (α : Type)
  | ok (val : α)
  | exn (msg : String)
deriving DecidableEq, Repr

/-- Attribute access `context.force` (used by `_execute_stop_operation`,
server_manager_service.py line 403): `OperationContext` has no `force` field,
so the access raises `AttributeError`.  The guarded branch documents what the
access would return if the field existed. -/
def pyContextGetForce (_ : OperationContextPy) : PyOutcome Bool :=
  if operationContextFields.contains "force" then .ok false
  else .exn "AttributeError: 'OperationContext' object has no attribute 'force'"

/-- Attribute access `context.wait_for_ready` (used by
`_execute_start_operation`, server_manager_service.py line 386): no such
field exists on `OperationContext`. -/
def pyContextGetWaitForReady (_ : OperationContextPy) : PyOutcome Bool :=
  if operationContextFields.contains "wait_for_ready" then .ok false
  else .exn "AttributeError: 'OperationContext' object has no attribute 'wait_for_ready'"

/-- Embeds `OperationResult` dataclass (server_operation.py lines 62–98): the fields
the embedded flows touch.  `__post_init__` defaults `start_time` to the
current clock, which the constructor below receives as `now`. -/
structure OperationResultM where
  operationId : String
  operationType : OperationType := .statusCheck
  instanceId : String := ""
  status : OperationStatus := .pending
  startTime : Option Nat := none
  endTime : Option Nat := none
  success : Bool := false
  errorMessage : Option String := none
  errorCode : Option String := none
  targetState : Option String := none
deriving DecidableEq, Repr

/-- Embeds `OperationResult(...)` construction followed by `__post_init__`
(server_operation.py lines 95–98). -/
def mkOperationResult (operationId : String) (operationType : OperationType)
    (instanceId : String) (status : OperationStatus)
    (errorMessage : Option String) (now : Nat) : OperationResultM :=
  { operationId := operationId, operationType := operationType,
    instanceId := instanceId, status := status, startTime := some now,
    errorMessage := errorMessage }

/-- Embeds `ServerOperation` dataclass (server_operation.py lines 197–223): the
fields the embedded flows touch. -/
structure ServerOperation where
  operationId : String
  operationType : OperationType := .statusCheck
  instanceId : String := ""
  priority : OperationPriority := .normal
  targetState : Option String := none
  scheduledTime : Option Nat := none
  createdTime : Nat
  context : Option OperationContextPy := none
  status : OperationStatus := .pending
deriving DecidableEq, Repr

/-- The `state_map` of `ServerOperation.__post_init__` (server_operation.py
lines 236–241): `state_map.get(self.operation_type)`. -/
def operationTypeStateMap : OperationType → Option String
  | .start => some "running"
  | .stop => some "stopped"
  | .restart => some "running"
  | .reboot => some "running"
  | _ => none

/-- Embeds `ServerOperation.__post_init__` (server_operation.py lines 225–242):
raises `ValueError("instance_id is required")` on an empty instance id,
defaults the context, and derives `target_state` from the operation type
only when no explicit `target_state` was supplied. -/
def serverOperationPostInit (op : ServerOperation) : Except String ServerOperation :=
  if op.instanceId = "" then .error "instance_id is required"
  else
    let op1 := match op.context with
      | none => { op with context := some {} }
      | some _ => op
    let op2 := match op1.targetState with
      | none => { op1 with targetState := operationTypeStateMap op1.operationType }
      | some _ => op1
    .ok op2

/-- The method names defined on the `ServerOperation` dataclass
(server_operation.py lines 244–295).  `mark_started`, `mark_completed`,
`mark_failed` and `mark_cancelled` are *not* among them — they exist only on
`OperationResult`. -/
def serverOperationMethodNames : List String :=
  ["is_ready_to_execute", "is_completed", "create_result", "to_dict"]

/-- Method call `operation.mark_started()` (server_manager_service.py line
330) on a `ServerOperation`: the class defines no such method, so the call
raises `AttributeError`.  The guarded branch documents the effect the sibling
`OperationResult` methods would have. -/
def serverOperationMarkStarted (op : ServerOperation) : PyOutcome ServerOperation :=
  if serverOperationMethodNames.contains "mark_started" then
    .ok { op with status := .running }
  else .exn "AttributeError: 'ServerOperation' object has no attribute 'mark_started'"

/-- Method call `operation.mark_completed(...)` (server_manager_service.py
line 346) on a `ServerOperation`: no such method. -/
def serverOperationMarkCompleted (op : ServerOperation) : PyOutcome ServerOperation :=
  if serverOperationMethodNames.contains "mark_completed" then
    .ok { op with status := .completed }
  else .exn "AttributeError: 'ServerOperation' object has no attribute 'mark_completed'"

/-- Method call `operation.mark_failed(str(e))` (server_manager_service.py
line 352) on a `ServerOperation`: no such method, so the `except` handler of
`_execute_operation` itself raises. -/
def serverOperationMarkFailed (op : ServerOperation) (_msg : String) :
    PyOutcome ServerOperation :=
  if serverOperationMethodNames.contains "mark_failed" then
    .ok { op with status := .failed }
  else .exn "AttributeError: 'ServerOperation' object has no attribute 'mark_failed'"

/-! ## Server manager service — `src/core/services/server_manager_service.py` -/

/-- External EC2/SSM calls the embedded flows can issue. -/
inductive ExtCall
  | configureRegion (region : String)
  | startInstances (ids : List String)
  | stopInstances (ids : List String) (force : Bool)
  | rebootInstances (ids : List String)
  | describeInstance (id : String)
deriving DecidableEq, Repr

/-- Embeds `ServerManagerService._execute_stop_operation` (lines 400–419): reads
`operation.context.force` — which raises `AttributeError` because
`OperationContext` has no `force` field — and only then would issue the
unconditional `stop_instances` call (there is no eligibility check on the
instance's current state anywhere in this method). -/
def executeStopOperation (op : ServerOperation) (now : Nat) :
    PyOutcome OperationResultM × List ExtCall :=
  match op.context with
  | none => (.exn "AttributeError: 'NoneType' object has no attribute 'force'", [])
  | some c =>
      match pyContextGetForce c with
      | .exn m => (.exn m, [])
      | .ok force =>
          (.ok (mkOperationResult op.operationId .stop op.instanceId .completed none now),
           [ExtCall.stopInstances [op.instanceId] force])

/-- Embeds `ServerManagerService._execute_start_operation` (lines 370–398): issues
the `start_instances` call first (line 375), then reads
`operation.context.wait_for_ready` (line 386), which raises `AttributeError`.
The readiness-wait tail is therefore unreachable and is not modelled. -/
def executeStartOperation (op : ServerOperation) (now : Nat) :
    PyOutcome OperationResultM × List ExtCall :=
  let calls := [ExtCall.startInstances [op.instanceId]]
  match op.context with
  | none => (.exn "AttributeError: 'NoneType' object has no attribute 'wait_for_ready'", calls)
  | some c =>
      match pyContextGetWaitForReady c with
      | .exn m => (.exn m, calls)
      | .ok _ =>
          (.ok (mkOperationResult op.operationId .start op.instanceId .completed none now),
           calls)

/-- Embeds `ServerManagerService._execute_restart_operation` (lines 421–452): issues
the `reboot_instances` call, then reads `operation.context.wait_for_ready`,
which raises `AttributeError`. -/
def executeRestartOperation (op : ServerOperation) (now : Nat) :
    PyOutcome OperationResultM × List ExtCall :=
  let calls := [ExtCall.rebootInstances [op.instanceId]]
  match op.context with
  | none => (.exn "AttributeError: 'NoneType' object has no attribute 'wait_for_ready'", calls)
  | some c =>
      match pyContextGetWaitForReady c with
      | .exn m => (.exn m, calls)
      | .ok _ =>
          (.ok (mkOperationResult op.operationId .restart op.instanceId .completed none now),
           calls)

/-- Embeds `ServerManagerService._execute_operation` (lines 325–368): registers the
operation, calls `operation.mark_started()` — which raises `AttributeError`
since `ServerOperation` has no such method — whereupon the `except` handler's
`operation.mark_failed(str(e))` raises a second `AttributeError` that
propagates (the `finally` block only does registry bookkeeping).  The guarded
branches transcribe the flow the method would run if the methods existed. -/
def executeOperation (op : ServerOperation) (now : Nat) :
    PyOutcome OperationResultM × List ExtCall :=
  match serverOperationMarkStarted op with
  | .exn e =>
      (match serverOperationMarkFailed op e with
       | .exn e2 => (.exn e2, [])
       | .ok _ => (.ok (mkOperationResult op.operationId op.operationType
           op.instanceId .failed (some e) now), []))
  | .ok op1 =>
      let step :=
        match op1.operationType with
        | .start => executeStartOperation op1 now
        | .stop => executeStopOperation op1 now
        | .restart => executeRestartOperation op1 now
        | t => (.exn ("ValueError: Unsupported operation type: " ++ toString (repr t)), [])
      match step with
      | (.ok r, calls) =>
          (match serverOperationMarkCompleted op1 with
           | .exn e =>
               (match serverOperationMarkFailed op1 e with
                | .exn e2 => (.exn e2, calls)
                | .ok _ => (.ok (mkOperationResult op1.operationId op1.operationType
                    op1.instanceId .failed (some e) now), calls))
           | .ok _ => (.ok r, calls))
      | (.exn e, calls) =>
          (match serverOperationMarkFailed op1 e with
           | .exn e2 => (.exn e2, calls)
           | .ok _ => (.ok (mkOperationResult op1.operationId op1.operationType
               op1.instanceId .failed (some e) now), calls))

/-- The keyword arguments `stop_instance` passes to `OperationContext(...)`
(server_manager_service.py lines 57–63). -/
def stopContextKwargs : List String :=
  ["region", "account_id", "landing_zone", "platform", "force"]

/-- The keyword arguments `start_instance` passes to `OperationContext(...)`
(server_manager_service.py lines 38–44). -/
def startContextKwargs : List String :=
  ["region", "account_id", "landing_zone", "platform", "wait_for_ready"]

/-- The `TypeError` raised when `OperationContext(...)` is called with the
unexpected keyword argument `region` (the first unexpected one passed). -/
def operationContextInitTypeError : String :=
  "TypeError: __init__() got an unexpected keyword argument 'region'"

/-- Embeds `ServerManagerService.stop_instance` (lines 49–66): constructing the
`OperationContext` with keyword arguments that are not fields of the
dataclass raises `TypeError` before the `ServerOperation` is even built, so
no external call is ever issued and no result is returned.  The guarded
branch transcribes the flow a legal construction would take. -/
def stopInstance (inst : Instance) (force : Bool) (uid : String) (now : Nat) :
    PyOutcome OperationResultM × List ExtCall :=
  if stopContextKwargs.all (fun kw => operationContextFields.contains kw) then
    match serverOperationPostInit
        { operationId := uid, operationType := .stop, instanceId := inst.instanceId,
          priority := .normal, createdTime := now, context := some {} } with
    | .error e => (.exn e, [])
    | .ok op => executeOperation op now
  else (.exn operationContextInitTypeError, [])

/-- Embeds `ServerManagerService.start_instance` (lines 30–47): same construction
`TypeError` as `stop_instance`. -/
def startInstance (inst : Instance) (uid : String) (now : Nat) :
    PyOutcome OperationResultM × List ExtCall :=
  if startContextKwargs.all (fun kw => operationContextFields.contains kw) then
    match serverOperationPostInit
        { operationId := uid, operationType := .start, instanceId := inst.instanceId,
          priority := .normal, createdTime := now, context := some {} } with
    | .error e => (.exn e, [])
    | .ok op => executeOperation op now
  else (.exn operationContextInitTypeError, [])

/-- The gathered fan-out of `stop_multiple_instances` (lines 161–186) over
the already-filtered list: a task that raised is converted into a synthetic
`Failed` `OperationResult` carrying the exception text. -/
def stopMultipleGather (force : Bool) (uids : Nat → String) (now : Nat) :
    List Instance → Nat → List OperationResultM × List ExtCall
  | [], _ => ([], [])
  | i :: rest, k =>
      ((match (stopInstance i force (uids k) now).1 with
        | .ok res => res
        | .exn m => mkOperationResult ("stop_" ++ i.instanceId ++ "_" ++ strftimeHuman now)
            .stop i.instanceId .failed (some m) now) ::
          (stopMultipleGather force uids now rest (k + 1)).1,
       (stopInstance i force (uids k) now).2 ++
         (stopMultipleGather force uids now rest (k + 1)).2)

/-- Embeds `ServerManagerService.stop_multiple_instances` (lines 140–191): filters
to instances whose status is Running or Pending, returns `[]` when none
qualify (the filtered-out instances get *no* result at all), then fans out
`stop_instance` converting per-task exceptions into synthetic `Failed`
results. -/
def stopMultipleInstances (insts : List Instance) (force : Bool)
    (uids : Nat → String) (now : Nat) : List OperationResultM × List ExtCall :=
  if (insts.filter (fun i => i.status == InstanceStatus.running ||
      i.status == InstanceStatus.pending)).isEmpty then ([], [])
  else stopMultipleGather force uids now
    (insts.filter (fun i => i.status == InstanceStatus.running ||
      i.status == InstanceStatus.pending)) 0

/-- Outcome of one external `ec2_client.describe_instance` call. -/
inductive DescribeInstanceResult
  | raises
  | notFound
  | ok (stateName : String)
deriving DecidableEq, Repr

/-- Python `str.lower()` (ASCII case folding, structurally recursive so the
kernel can evaluate it). -/
def pyLower (s : String) : String := ⟨s.data.map Char.toLower⟩

/-- Embeds `ServerManagerService._map_aws_state_to_status` (lines 563–574). -/
def mapAwsStateToStatus (s : String) : InstanceStatus :=
  let l := pyLower s
  if l = "pending" then .pending
  else if l = "running" then .running
  else if l = "shutting-down" then .stopping
  else if l = "terminated" then .terminated
  else if l = "stopping" then .stopping
  else if l = "stopped" then .stopped
  else .unknown

/-- Embeds `ServerManagerService.get_instance_state` (lines 193–211): all exceptions
(including transport errors from the describe call) are caught and mapped to
`Unknown`; a missing instance record is likewise `Unknown`. -/
def getInstanceState (r : DescribeInstanceResult) : InstanceStatus :=
  match r with
  | .raises => .unknown
  | .notFound => .unknown
  | .ok s => mapAwsStateToStatus s

/-- Observable outcome of `wait_for_state`'s polling loop: target reached at
poll `k`, error-state exit at poll `k`, or deadline exhaustion.  The source
returns only the boolean (`toBool`) but logs distinguish the three exits. -/
inductive WaitResult
  | reached (k : Nat)
  | invalid (k : Nat)
  | timedOut
deriving DecidableEq, Repr

/-- The boolean `wait_for_state` returns. -/
def WaitResult.toBool : WaitResult → Bool
  | .reached _ => true
  | _ => false

/-- The polling loop of `wait_for_state` (lines 284–302): poll `k` happens at
clock `t0 + 15 * k` (`check_interval = 15` s); `fuel` is the number of loop
entries remaining before `datetime.utcnow() < timeout_time` fails.  The
target check precedes the error-state check; `Terminated` and `Unknown` are
the error states (line 293). -/
def waitStateLoop (target : InstanceStatus) (resp : Nat → DescribeInstanceResult) :
    Nat → Nat → WaitResult
  | _, 0 => .timedOut
  | k, fuel + 1 =>
      if getInstanceState (resp k) = target then .reached k
      else if getInstanceState (resp k) = .terminated ∨
          getInstanceState (resp k) = .unknown then .invalid k
      else waitStateLoop target resp (k + 1) fuel

/-- Embeds `ServerManagerService.wait_for_state` (lines 275–306): the deadline is
`60 * timeoutMinutes` seconds with 15-second polls, so exactly
`4 * timeoutMinutes` loop entries satisfy `now < timeout_time`; deadline
exhaustion returns `False` (lines 304–306). -/
def waitForState (target : InstanceStatus) (resp : Nat → DescribeInstanceResult)
    (timeoutMinutes : Nat) : WaitResult :=
  waitStateLoop target resp 0 (4 * timeoutMinutes)

/-! ## Workflow model — `src/core/models/workflow.py` -/

/-- Embeds `WorkflowPhase` enum (workflow.py lines 10–16).  Note there is no
`START_SERVERS` member. -/
inductive WorkflowPhase
  | scanner
  | amiBackup
  | serverManager
  | validation
  | cleanup
deriving DecidableEq, Repr

/-- Embeds `PhaseStatus` enum (workflow.py lines 19–26). -/
inductive PhaseStatus
  | pending
  | running
  | completed
  | failed
  | skipped
  | cancelled
deriving DecidableEq, Repr

/-- Embeds `WorkflowStatus` enum (workflow.py lines 29–36). -/
inductive WorkflowStatus
  | pending
  | running
  | completed
  | failed
  | cancelled
  | partialSuccess
deriving DecidableEq, Repr

/-- Embeds `PhaseResult` dataclass (workflow.py lines 80–98): the fields the
embedded flows touch. -/
structure PhaseResultM where
  phase : WorkflowPhase
  status : PhaseStatus
  startTime : Option Nat := none
  endTime : Option Nat := none
  errorMessage : Option String := none
  errors : List String := []
deriving DecidableEq, Repr

/-- Embeds `PhaseResult.mark_completed` (workflow.py lines 145–150). -/
def PhaseResultM.markCompleted (p : PhaseResultM) (now : Nat) : PhaseResultM :=
  { p with status := .completed, endTime := some now }

/-- Embeds `PhaseResult.mark_failed` (workflow.py lines 152–157): sets the status,
the error message, and appends to the error list via `add_error`. -/
def PhaseResultM.markFailed (p : PhaseResultM) (e : String) (now : Nat) : PhaseResultM :=
  { p with status := .failed, endTime := some now, errorMessage := some e,
           errors := p.errors ++ [e] }

/-- Embeds `WorkflowResult` dataclass (workflow.py lines 186–222): the fields the
embedded flows touch. -/
structure WorkflowResultM where
  workflowId : String
  workflowName : String := "Pre-Patch Workflow"
  status : WorkflowStatus := .pending
  startTime : Option Nat := none
  endTime : Option Nat := none
  phaseResults : List (WorkflowPhase × PhaseResultM) := []
  errors : List String := []
deriving DecidableEq, Repr

/-- Embeds `WorkflowResult.mark_completed` (workflow.py lines 295–298). -/
def WorkflowResultM.markCompleted (w : WorkflowResultM) (now : Nat) : WorkflowResultM :=
  { w with status := .completed, endTime := some now }

/-- Embeds `WorkflowResult.mark_failed` (workflow.py lines 300–304). -/
def WorkflowResultM.markFailed (w : WorkflowResultM) (e : String) (now : Nat) :
    WorkflowResultM :=
  { w with status := .failed, endTime := some now, errors := w.errors ++ [e] }

/-- Embeds `WorkflowResult.mark_partial_success` (workflow.py lines 306–309).
Defined in the model but invoked nowhere in the repository. -/
def WorkflowResultM.markPartialSuccess (w : WorkflowResultM) (now : Nat) :
    WorkflowResultM :=
  { w with status := .partialSuccess, endTime := some now }

/-! ## Workflow orchestrator —
`src/core/services/workflow_orchestrator.py` -/

/-- The field names of the `WorkflowResult` dataclass, transcribed from
workflow.py lines 186–222.  Note there is no `config_file`, `phases`,
`current_phase` or `completed_phases` field. -/
def workflowResultFields : List String :=
  ["workflow_id", "workflow_name", "status", "start_time", "end_time",
   "phase_results", "total_instances", "successful_instances",
   "failed_instances", "skipped_instances", "landing_zone_results", "errors",
   "warnings", "output_files", "reports", "context"]

/-- The keyword arguments `run_prepatch_workflow` passes to
`WorkflowResult(...)` (workflow_orchestrator.py lines 64–71). -/
def runPrepatchResultKwargs : List String :=
  ["workflow_id", "workflow_name", "config_file", "start_time", "status", "phases"]

/-- The field names of the `WorkflowContext` dataclass, transcribed from
workflow.py lines 160–183.  Note there is no `config`, `instances` or
`phase_results` field. -/
def workflowContextFields : List String :=
  ["workflow_id", "user", "environment", "dry_run", "config_file",
   "landing_zones", "skip_scanner", "skip_ami_backup", "skip_server_manager",
   "skip_validation", "max_parallel_operations", "timeout_minutes", "metadata"]

/-- The keyword arguments `run_prepatch_workflow` passes to
`WorkflowContext(...)` (workflow_orchestrator.py lines 74–80). -/
def runPrepatchContextKwargs : List String :=
  ["workflow_id", "config", "instances", "phase_results", "metadata"]

/-- The field names of the `WorkflowConfig` dataclass, transcribed from
config.py lines 216–245.  Note there is no `phases` field, although
`_execute_workflow_phases` iterates over `context.config.phases`
(workflow_orchestrator.py line 237). -/
def workflowConfigFields : List String :=
  ["name", "version", "description", "landing_zones", "scanner", "ami_backup",
   "server_manager", "validation", "aws", "reporting", "logging", "safety",
   "parallel_execution", "max_parallel_landing_zones", "continue_on_error",
   "environment_overrides"]

/-- Outcome of a phase's body inside `run_workflow_phase`
(workflow_orchestrator.py lines 136–147): `env p` abstracts whether the
phase-implementation coroutine for `p` raised (`some msg`) or returned
(`none`).  For every phase other than `SCANNER` and `AMI_BACKUP` the `elif`
chain evaluates `WorkflowPhase.START_SERVERS` (line 142), an attribute the
enum does not define, so the body raises `AttributeError` regardless of
`env`. -/
def phaseBodyOutcome (env : WorkflowPhase → Option String) :
    WorkflowPhase → Option String
  | .scanner => env .scanner
  | .amiBackup => env .amiBackup
  | _ => some "AttributeError: type object 'WorkflowPhase' has no attribute 'START_SERVERS'"

/-- Embeds `WorkflowOrchestrator.run_workflow_phase` (workflow_orchestrator.py lines
115–161), for a registered workflow: raises `CancelledError` if the
cancellation token is set; otherwise builds a `Running` `PhaseResult`,
runs the phase body, and — crucially — catches any body exception, marking
the phase result `Failed` *without re-raising* (lines 152–155). -/
def runWorkflowPhase (cancelled : Bool) (env : WorkflowPhase → Option String)
    (phase : WorkflowPhase) (now : Nat) : Except String PhaseResultM :=
  if cancelled then .error "CancelledError: Workflow was cancelled"
  else
    let pr : PhaseResultM := { phase := phase, status := .running, startTime := some now }
    match phaseBodyOutcome env phase with
    | none => .ok (pr.markCompleted now)
    | some e => .ok (pr.markFailed e now)

/-- The final marking of `run_prepatch_workflow` (workflow_orchestrator.py
lines 87–105): `mark_completed` when `_execute_workflow_phases` returns,
`mark_failed` when it raises.  `mark_partial_success` is not called on either
path (nor anywhere else in the repository). -/
def finalWorkflowStatus : Except String Unit → WorkflowStatus
  | .ok _ => .completed
  | .error _ => .failed

/-- Embeds `WorkflowOrchestrator.run_prepatch_workflow` (workflow_orchestrator.py
lines 48–113).  `configErrors` is what `config_service.validate_config()`
returned and `env` the phase-body environment; `continueOnError` is the
configuration flag, which the method never consults.  Control flow: a
non-empty error list raises `ValueError` (lines 56–60); otherwise the
`WorkflowResult(...)` construction at lines 64–71 raises `TypeError`
(`config_file` and `phases` are not fields of the dataclass), so no workflow
result is ever produced.  The guarded branches transcribe the further flow a
legal construction would take: the `WorkflowContext(...)` construction at
lines 74–80 would also raise `TypeError`, and `_execute_workflow_phases`
would raise `AttributeError` on `context.config.phases`, which the `except`
at lines 99–105 turns into a `Failed` result. -/
def runPrepatchWorkflow (continueOnError : Bool) (configErrors : List String)
    (env : WorkflowPhase → Option String) (wfId : String) (now : Nat) :
    PyOutcome WorkflowResultM :=
  if configErrors.isEmpty then
    if runPrepatchResultKwargs.all (fun kw => workflowResultFields.contains kw) then
      if runPrepatchContextKwargs.all (fun kw => workflowContextFields.contains kw) then
        if workflowConfigFields.contains "phases" then
          .ok { workflowId := wfId, status := .completed, startTime := some now }
        else
          .ok (WorkflowResultM.markFailed
            { workflowId := wfId, status := .running, startTime := some now }
            "AttributeError: 'WorkflowConfig' object has no attribute 'phases'" now)
      else .exn "TypeError: __init__() got an unexpected keyword argument 'config'"
    else .exn "TypeError: __init__() got an unexpected keyword argument 'config_file'"
  else .exn ("Configuration validation failed: " ++ String.intercalate "; " configErrors)

/-! ## Sample inputs used by concrete evaluations -/

/-- A well-formed discovered instance flagged for backup. -/
def sampleInstance : Instance :=
  { instanceId := "i-0a1b2c3d", landingZone := "lz1", region := "ap-southeast-2",
    accountId := "123456789012", status := .running, platform := .linux,
    tags := { backupRequired := some true } }

/-- A bare `AMIBackup` record as passed to construction. -/
def sampleBaseBackup : AMIBackup :=
  { backupId := "b-0", instanceId := "i-0a1b2c3d", createdTime := 0 }

/-- Embeds `sampleBaseBackup` after `__post_init__`. -/
def samplePostInitBackup : AMIBackup :=
  match amiBackupPostInit sampleBaseBackup with
  | .ok b => b
  | .error _ => sampleBaseBackup

/-- The backup `create_backup` produces for `sampleInstance` when the
`create_image` call returns `ami-1`: a `Creating` backup holding the AMI
id. -/
def sampleCreatingBackup : AMIBackup :=
  match createBackupE sampleInstance .prePatch {} (.ok "ami-1") "b-1" 0 with
  | .ok b => b
  | .error _ => { backupId := "b-1", instanceId := "i-0a1b2c3d", createdTime := 0 }

/-- Embeds `sampleCreatingBackup` after a status poll observed the image
`available`: the backup is in its terminal `Available` state. -/
def sampleAvailableBackup : AMIBackup :=
  (getBackupStatus sampleCreatingBackup (.ok "available") 30).1

/-! ## Helper lemmas -/

/-- Embeds `AMIBackup.__post_init__` only fills `ami_name`, `description` and
`tags`: every other field survives construction unchanged. -/
theorem amiBackupPostInit_ok_fields {b b' : AMIBackup}
    (h : amiBackupPostInit b = .ok b') :
    b'.instanceId = b.instanceId ∧ b'.status = b.status ∧ b'.amiId = b.amiId ∧
    b'.errorMessage = b.errorMessage ∧ b'.startTime = b.startTime ∧
    b'.completionTime = b.completionTime ∧ b'.currentStep = b.currentStep ∧
    b'.progressPercentage = b.progressPercentage := by
  unfold amiBackupPostInit at h
  split at h
  · exact Except.noConfusion h
  · injection h with h
    subst h
    refine ⟨?_, ?_, ?_, ?_, ?_, ?_, ?_, ?_⟩ <;>
      (try dsimp only) <;> (split <;> split <;> rfl)

/-- With a non-empty instance id, `__post_init__` succeeds. -/
theorem amiBackupPostInit_ok_of_ne {b : AMIBackup} (h : b.instanceId ≠ "") :
    ∃ b', amiBackupPostInit b = .ok b' := by
  unfold amiBackupPostInit
  split
  · exact absurd (by assumption) h
  · exact ⟨_, rfl⟩

/-! ## C10 — constructors reject empty instance identities -/

/-- C10: constructing an `AMIBackup` or a `ServerOperation` with an empty
instance id always fails with the `ValueError` message
"instance_id is required", and conversely every successfully constructed
record carries a non-empty instance id. -/
theorem postInit_requires_instance_id :
    (∀ b : AMIBackup, b.instanceId = "" →
        amiBackupPostInit b = .error "instance_id is required") ∧
    (∀ op : ServerOperation, op.instanceId = "" →
        serverOperationPostInit op = .error "instance_id is required") ∧
    (∀ (b b' : AMIBackup), amiBackupPostInit b = .ok b' → b'.instanceId ≠ "") ∧
    (∀ (op op' : ServerOperation), serverOperationPostInit op = .ok op' →
        op'.instanceId ≠ "") := by
  refine ⟨?_, ?_, ?_, ?_⟩
  · intro b hb
    unfold amiBackupPostInit
    simp [hb]
  · intro op hop
    unfold serverOperationPostInit
    simp [hop]
  · intro b b' h
    have hfields := amiBackupPostInit_ok_fields h
    intro hempty
    rw [hfields.1] at hempty
    unfold amiBackupPostInit at h
    rw [if_pos hempty] at h
    exact Except.noConfusion h
  · intro op op' h
    unfold serverOperationPostInit at h
    by_cases hid : op.instanceId = ""
    · rw [if_pos hid] at h
      exact Except.noConfusion h
    · rw [if_neg hid] at h
      injection h with h
      subst h
      intro hempty
      apply hid
      revert hempty
      split <;> split <;> exact fun hh => hh

/-- Witness for C10: the empty-id constructions fail at concrete inputs, and
a concrete successful construction has a non-empty id. -/
theorem postInit_requires_instance_id_witness :
    amiBackupPostInit { backupId := "b-0", instanceId := "", createdTime := 0 } =
      .error "instance_id is required" ∧
    serverOperationPostInit { operationId := "op-0", instanceId := "", createdTime := 0 } =
      .error "instance_id is required" ∧
    samplePostInitBackup.instanceId ≠ "" := by
  refine ⟨?_, ?_, ?_⟩
  · exact postInit_requires_instance_id.1 _ rfl
  · exact postInit_requires_instance_id.2.1 _ rfl
  · exact postInit_requires_instance_id.2.2.1 sampleBaseBackup samplePostInitBackup (by rfl)

/-! ## C9 — `target_state` versus operation type -/

/-- Projection of a construction outcome to the resulting `target_state`. -/
def resultTargetState : Except String ServerOperation → Option String
  | .ok op => op.targetState
  | .error _ => none

/-- A `ServerOperation` constructed with an explicit `target_state` that
contradicts its operation type. -/
def mismatchedOperation : ServerOperation :=
  { operationId := "op-9", operationType := .start, instanceId := "i-0a1b2c3d",
    targetState := some "stopped", createdTime := 0 }

/-- C9 counterexample: `__post_init__` keeps an explicitly supplied
`target_state` even when it contradicts the operation type, so `target_state`
is *not* a pure function of the type: a Start operation is successfully
constructed with `target_state = "stopped"` although the type-derived value
is `"running"`. -/
theorem targetState_not_pure_function_of_type :
    resultTargetState (serverOperationPostInit mismatchedOperation) = some "stopped" ∧
    operationTypeStateMap OperationType.start = some "running" := by
  exact ⟨rfl, rfl⟩

/-- C9 amended: `target_state` is derived as the pure function of the
operation type (Start→running, Stop→stopped, Restart→running,
Reboot→running, others→none) only when no explicit `target_state` is
supplied; an explicit value is kept unchanged, overriding the derivation. -/
theorem targetState_derived_when_unset :
    (∀ op : ServerOperation, op.instanceId ≠ "" → op.targetState = none →
        ∃ op', serverOperationPostInit op = .ok op' ∧
          op'.targetState = operationTypeStateMap op.operationType) ∧
    (∀ (op : ServerOperation) (t : String), op.instanceId ≠ "" →
        op.targetState = some t →
        ∃ op', serverOperationPostInit op = .ok op' ∧ op'.targetState = some t) := by
  constructor
  · intro op hid ht
    unfold serverOperationPostInit
    rw [if_neg hid]
    refine ⟨_, rfl, ?_⟩
    cases hctx : op.context <;> simp only [hctx] <;> rw [ht]
  · intro op t hid ht
    unfold serverOperationPostInit
    rw [if_neg hid]
    refine ⟨_, rfl, ?_⟩
    cases hctx : op.context <;> simp only [hctx] <;> (rw [ht]; try exact ht)

/-- Witness for C9 amended: a Stop operation built without an explicit
`target_state` gets `"stopped"`, and one built with an explicit value keeps
it. -/
theorem targetState_derived_when_unset_witness :
    (∃ op', serverOperationPostInit
        { operationId := "op-9a", operationType := .stop,
          instanceId := "i-0a1b2c3d", createdTime := 0 } = .ok op' ∧
      op'.targetState = operationTypeStateMap OperationType.stop) ∧
    (∃ op', serverOperationPostInit mismatchedOperation = .ok op' ∧
      op'.targetState = some "stopped") := by
  constructor
  · exact targetState_derived_when_unset.1 _ (by decide) rfl
  · exact targetState_derived_when_unset.2 mismatchedOperation "stopped" (by decide) rfl

/-! ## C2 — terminal backup states under later status polls -/

/-- The external image state agrees with the recorded terminal backup
status. -/
def statusAgrees (st : BackupStatus) (s : String) : Bool :=
  (st = BackupStatus.available ∧ s = "available") ∨
  (st = BackupStatus.failed ∧ (s = "failed" ∨ s = "error"))

/-- C2 counterexample: a backup in its terminal `Available` state *is*
mutated by a later status poll — when the external describe reports the image
`pending`, `get_backup_status` overwrites the terminal state with `Creating`
(ami_backup_service.py lines 164–166). -/
theorem terminal_backup_state_mutated_by_poll :
    sampleAvailableBackup.status = BackupStatus.available ∧
    (getBackupStatus sampleAvailableBackup (.ok "pending") 60).1.status =
      BackupStatus.creating := by
  exact ⟨rfl, rfl⟩

/-- C2 amended: a terminal backup state (`Available` or `Failed`) is left
unchanged by a later status poll only when the poll raises, the image is not
found, the backup carries no artifact id, or the external state agrees with
the recorded terminal state; a successful poll reporting a conflicting
external state overwrites the terminal state (see the counterexample). -/
theorem terminal_backup_state_preserved_cases (b : AMIBackup)
    (r : DescribeImageResult) (now : Nat)
    (hterm : b.status = BackupStatus.available ∨ b.status = BackupStatus.failed)
    (hcase : r = .raises ∨ r = .notFound ∨ b.amiIdFalsy = true ∨
      (∃ s, r = .ok s ∧ statusAgrees b.status s = true)) :
    (getBackupStatus b r now).1 = b := by
  unfold getBackupStatus
  by_cases hf : b.amiIdFalsy = true
  · rw [if_pos hf]
  · rw [if_neg hf]
    rcases hcase with hc | hc | hc | ⟨s, hs, hagree⟩
    · rw [hc]
    · rw [hc]
      have : ¬ b.status = BackupStatus.creating := by
        rcases hterm with h | h <;> simp [h]
      simp only [this, if_neg, if_false]
    · exact absurd hc hf
    · rw [hs]
      simp only [statusAgrees, decide_eq_true_eq] at hagree
      rcases hagree with ⟨hst, hsv⟩ | ⟨hst, hsv⟩
      · subst hsv
        simp [hst]
      · rcases hsv with hsv | hsv <;> subst hsv <;> simp [hst]

/-- Witness for C2 amended: concrete terminal backups survive an erroring
poll, a not-found poll, and an agreeing poll. -/
theorem terminal_backup_state_preserved_cases_witness :
    (getBackupStatus sampleAvailableBackup .raises 99).1 = sampleAvailableBackup ∧
    (getBackupStatus sampleAvailableBackup .notFound 99).1 = sampleAvailableBackup ∧
    (getBackupStatus sampleAvailableBackup (.ok "available") 99).1 = sampleAvailableBackup := by
  refine ⟨?_, ?_, ?_⟩
  · exact terminal_backup_state_preserved_cases _ _ _ (Or.inl (by rfl)) (Or.inl rfl)
  · exact terminal_backup_state_preserved_cases _ _ _ (Or.inl (by rfl))
      (Or.inr (Or.inl rfl))
  · exact terminal_backup_state_preserved_cases _ _ _ (Or.inl (by rfl))
      (Or.inr (Or.inr (Or.inr ⟨"available", rfl, by rfl⟩)))

/-! ## C5 — `wait_for_completion` return value versus final state -/

/-- Whenever `get_backup_status` returns `Available`, the backup it leaves
behind is recorded `Available` (it either already was, or was just marked
completed). -/
theorem getBackupStatus_available_fst (b : AMIBackup) (r : DescribeImageResult)
    (now : Nat) (h : (getBackupStatus b r now).2 = BackupStatus.available) :
    (getBackupStatus b r now).1.status = BackupStatus.available := by
  unfold getBackupStatus at h ⊢
  by_cases hf : b.amiIdFalsy = true
  · rw [if_pos hf] at h ⊢
    exact h
  · rw [if_neg hf] at h ⊢
    cases r with
    | raises => exact h
    | notFound =>
        dsimp only at h
        by_cases hc : b.status = BackupStatus.creating
        · rw [if_pos hc] at h
          simp at h
        · rw [if_neg hc] at h
          simp at h
    | ok s =>
        dsimp only at h ⊢
        by_cases h1 : s = "available"
        · rw [if_pos h1] at h ⊢
          by_cases h2 : b.status = BackupStatus.available
          · rw [if_pos h2]
            exact h2
          · rw [if_neg h2]
            rfl
        · rw [if_neg h1] at h ⊢
          by_cases h2 : s = "pending"
          · rw [if_pos h2] at h
            simp at h
          · rw [if_neg h2] at h
            by_cases h3 : s = "failed" ∨ s = "error"
            · rw [if_pos h3] at h
              by_cases h4 : b.status = BackupStatus.failed
              · rw [if_pos h4] at h
                simp at h
              · rw [if_neg h4] at h
                simp at h
            · rw [if_neg h3] at h
              simp at h

/-- Embeds `_update_backup_progress` never erases an artifact id: a backup whose
`ami_id` is truthy stays truthy. -/
theorem updateBackupProgress_amiId_truthy (b : AMIBackup) (r : DescribeImageResult)
    (now : Nat) (h : b.amiIdFalsy = false) :
    (updateBackupProgress b r now).amiIdFalsy = false := by
  unfold updateBackupProgress
  rw [if_neg (by simp [h])]
  match r with
  | .raises => exact h
  | .notFound => exact h
  | .ok s =>
      simp only
      split
      · split
        · simpa [AMIBackup.updateProgress, AMIBackup.amiIdFalsy] using h
        · exact h
      · split
        · unfold AMIBackup.amiIdFalsy at h ⊢
          unfold AMIBackup.markCompleted
          cases ha : b.amiId with
          | none => rw [ha] at h; exact absurd h (by simp [optStrFalsy])
          | some a =>
              rw [ha] at h
              simp only [optStrFalsy] at h ⊢
              simpa [ha] using h
        · split
          · simpa [AMIBackup.markFailed, AMIBackup.amiIdFalsy] using h
          · exact h

/-- If the polling loop of `wait_for_completion` returns `true`, the backup
it returns is recorded `Available`. -/
theorem waitCompletionLoop_true_available (statusResp progResp : Nat → DescribeImageResult)
    (t0 : Nat) : ∀ (fuel k : Nat) (b : AMIBackup),
    (waitCompletionLoop statusResp progResp t0 k b fuel).2 = true →
    (waitCompletionLoop statusResp progResp t0 k b fuel).1.status =
      BackupStatus.available := by
  intro fuel
  induction fuel with
  | zero =>
      intro k b h
      simp [waitCompletionLoop] at h
  | succ n ih =>
      intro k b h
      unfold waitCompletionLoop at h ⊢
      by_cases h1 : (getBackupStatus b (statusResp k) (t0 + 30 * k)).2 = BackupStatus.available
      · rw [if_pos h1] at h ⊢
        exact getBackupStatus_available_fst _ _ _ h1
      · rw [if_neg h1] at h ⊢
        by_cases h2 : (getBackupStatus b (statusResp k) (t0 + 30 * k)).2 = BackupStatus.failed ∨
            (getBackupStatus b (statusResp k) (t0 + 30 * k)).2 = BackupStatus.error ∨
            (getBackupStatus b (statusResp k) (t0 + 30 * k)).2 = BackupStatus.cancelled
        · rw [if_pos h2] at h
          simp at h
        · rw [if_neg h2] at h ⊢
          exact ih (k + 1) _ h

/-- With an external status that never leaves `pending`, the polling loop
runs to exhaustion and marks the backup failed with the timeout reason —
provided the backup does not start out recorded `Available`/terminal without
an artifact id. -/
theorem waitCompletionLoop_pending_timeout (statusResp progResp : Nat → DescribeImageResult)
    (t0 : Nat) (hresp : ∀ k, statusResp k = .ok "pending") :
    ∀ (fuel k : Nat) (b : AMIBackup),
    (b.amiIdFalsy = true → b.status = BackupStatus.pending ∨ b.status = BackupStatus.creating) →
    (waitCompletionLoop statusResp progResp t0 k b fuel).2 = false ∧
    (waitCompletionLoop statusResp progResp t0 k b fuel).1.status = BackupStatus.failed ∧
    (waitCompletionLoop statusResp progResp t0 k b fuel).1.errorMessage =
      some "Backup operation timed out" := by
  intro fuel
  induction fuel with
  | zero =>
      intro k b hP
      refine ⟨rfl, ?_, ?_⟩ <;> simp [waitCompletionLoop, AMIBackup.markFailed]
  | succ n ih =>
      intro k b hP
      unfold waitCompletionLoop
      rw [hresp k]
      by_cases hf : b.amiIdFalsy = true
      · have hstat := hP hf
        have hgs : getBackupStatus b (.ok "pending") (t0 + 30 * k) = (b, b.status) := by
          unfold getBackupStatus
          rw [if_pos hf]
        rw [hgs]
        have hupd : updateBackupProgress b (progResp k) (t0 + 30 * k) = b := by
          unfold updateBackupProgress
          rw [if_pos hf]
        rcases hstat with h | h <;> rw [h] <;>
          simp only [reduceCtorEq, false_or, or_self, if_false] <;>
          rw [hupd] <;> exact ih (k + 1) b hP
      · have hgs : getBackupStatus b (.ok "pending") (t0 + 30 * k) =
            ({ b with status := BackupStatus.creating }, BackupStatus.creating) := by
          unfold getBackupStatus
          rw [if_neg hf]
          rfl
        rw [hgs]
        simp only [reduceCtorEq, false_or, or_self, if_false]
        apply ih (k + 1)
        intro hf'
        exfalso
        have hb' : ({ b with status := BackupStatus.creating } : AMIBackup).amiIdFalsy = false := by
          have hbf : b.amiIdFalsy = false := by
            cases hx : b.amiIdFalsy
            · rfl
            · exact absurd hx hf
          simpa [AMIBackup.amiIdFalsy] using hbf
        have := updateBackupProgress_amiId_truthy _ (progResp k) (t0 + 30 * k) hb'
        rw [hf'] at this
        exact Bool.noConfusion this

/-- C5 counterexample: `wait_for_completion` can return `false` while the
backup's final recorded state *is* `Available` — a backup already `Available`
whose image the describe call no longer finds takes the not-found branch of
`get_backup_status`, which reports `Failed` without mutating the record
(ami_backup_service.py lines 174–178), so the claimed "returns true if and
only if the final recorded state is Available" fails. -/
theorem waitForCompletion_false_yet_available :
    (waitForCompletion sampleAvailableBackup (fun _ => .notFound) (fun _ => .notFound) 0 1).2
      = false ∧
    (waitForCompletion sampleAvailableBackup (fun _ => .notFound) (fun _ => .notFound) 0 1).1.status
      = BackupStatus.available := by
  exact ⟨rfl, rfl⟩

/-- C5 amended: (a) `wait_for_completion` returns `true` only if the final
recorded state is `Available` (the converse can fail, see the
counterexample); (b) when the external status never leaves `"pending"` and
the backup starts out `Pending`/`Creating` (as every backup produced by the
creation flow does), the wait runs out its deadline, returns `false`, and
leaves the backup `Failed` with an error reason containing "timed out". -/
theorem waitForCompletion_amended :
    (∀ (b : AMIBackup) (statusResp progResp : Nat → DescribeImageResult) (t0 m : Nat),
      (waitForCompletion b statusResp progResp t0 m).2 = true →
      (waitForCompletion b statusResp progResp t0 m).1.status = BackupStatus.available) ∧
    (∀ (b : AMIBackup) (statusResp progResp : Nat → DescribeImageResult) (t0 m : Nat),
      (∀ k, statusResp k = .ok "pending") →
      (b.status = BackupStatus.pending ∨ b.status = BackupStatus.creating) →
      (waitForCompletion b statusResp progResp t0 m).2 = false ∧
      (waitForCompletion b statusResp progResp t0 m).1.status = BackupStatus.failed ∧
      (waitForCompletion b statusResp progResp t0 m).1.errorMessage =
        some "Backup operation timed out" ∧
      ∃ pre post, "Backup operation timed out" = pre ++ "timed out" ++ post) := by
  constructor
  · intro b statusResp progResp t0 m
    exact waitCompletionLoop_true_available statusResp progResp t0 (2 * m) 0 b
  · intro b statusResp progResp t0 m hresp hstat
    have := waitCompletionLoop_pending_timeout statusResp progResp t0 hresp (2 * m) 0 b
      (fun _ => hstat)
    exact ⟨this.1, this.2.1, this.2.2, "Backup operation ", "", rfl⟩

/-- Witness for C5 amended: a backup whose first poll reports `available`
makes the wait return `true` with final state `Available`; a backup polled
forever-`pending` with a 1-minute deadline returns `false`, `Failed`, and the
timeout reason. -/
theorem waitForCompletion_amended_witness :
    (waitForCompletion sampleCreatingBackup (fun _ => .ok "available") (fun _ => .ok "available") 0 1).1.status
      = BackupStatus.available ∧
    ((waitForCompletion sampleCreatingBackup (fun _ => .ok "pending") (fun _ => .ok "pending") 0 1).2 = false ∧
     (waitForCompletion sampleCreatingBackup (fun _ => .ok "pending") (fun _ => .ok "pending") 0 1).1.status
       = BackupStatus.failed ∧
     (waitForCompletion sampleCreatingBackup (fun _ => .ok "pending") (fun _ => .ok "pending") 0 1).1.errorMessage
       = some "Backup operation timed out" ∧
     ∃ pre post, "Backup operation timed out" = pre ++ "timed out" ++ post) := by
  constructor
  · exact waitForCompletion_amended.1 sampleCreatingBackup _ _ 0 1 (by rfl)
  · exact waitForCompletion_amended.2 sampleCreatingBackup _ _ 0 1 (fun _ => rfl)
      (Or.inr (by rfl))

/-! ## C6 / C7 — batch backup creation -/

/-- For a well-formed instance, `create_backup` with a successful
`create_image` call returns a `Creating` backup carrying the instance id and
the returned AMI id. -/
theorem createBackupE_ok (i : Instance) (bt : BackupType) (cfg : BackupConfiguration)
    (uid : String) (now : Nat) (a : String) (hid : i.instanceId ≠ "") :
    ∃ b, createBackupE i bt cfg (.ok a) uid now = .ok b ∧
      b.instanceId = i.instanceId ∧ b.status = BackupStatus.creating ∧
      b.amiId = some a := by
  obtain ⟨b0, hb0⟩ := amiBackupPostInit_ok_of_ne (b :=
    { backupId := uid, instanceId := i.instanceId, backupType := bt,
      region := i.region, accountId := i.accountId, landingZone := i.landingZone,
      sourceAmiId := i.amiId, platform := some i.platform.value,
      configuration := cfg, createdTime := now }) hid
  unfold createBackupE
  rw [hb0]
  refine ⟨_, rfl, ?_, rfl, rfl⟩
  exact (amiBackupPostInit_ok_fields hb0).1

/-- For a well-formed instance, a raising or id-less `create_image` call
makes `create_backup` re-raise. -/
theorem createBackupE_error (i : Instance) (bt : BackupType) (cfg : BackupConfiguration)
    (uid : String) (now : Nat) (hid : i.instanceId ≠ "") :
    (∀ msg, createBackupE i bt cfg (.raises msg) uid now = .error msg) ∧
    createBackupE i bt cfg .noId uid now =
      .error "No AMI ID returned from create_image call" := by
  obtain ⟨b0, hb0⟩ := amiBackupPostInit_ok_of_ne (b :=
    { backupId := uid, instanceId := i.instanceId, backupType := bt,
      region := i.region, accountId := i.accountId, landingZone := i.landingZone,
      sourceAmiId := i.amiId, platform := some i.platform.value,
      configuration := cfg, createdTime := now }) hid
  constructor
  · intro msg
    unfold createBackupE
    rw [hb0]
  · unfold createBackupE
    rw [hb0]

/-- The synthetic failed record for a well-formed instance: terminal `Failed`,
carrying the error reason, with no artifact id. -/
theorem syntheticFailedBackupE_ok (i : Instance) (bt : BackupType) (msg uid : String)
    (now : Nat) (hid : i.instanceId ≠ "") :
    ∃ b, syntheticFailedBackupE i bt msg uid now = .ok b ∧
      b.instanceId = i.instanceId ∧ b.status = BackupStatus.failed ∧
      b.errorMessage = some msg ∧ b.amiId = none := by
  obtain ⟨b0, hb0⟩ := amiBackupPostInit_ok_of_ne (b :=
    { backupId := uid, instanceId := i.instanceId, backupType := bt,
      region := i.region, accountId := i.accountId, landingZone := i.landingZone,
      createdTime := now }) hid
  unfold syntheticFailedBackupE
  rw [hb0]
  refine ⟨_, rfl, ?_, rfl, rfl, ?_⟩
  · exact (amiBackupPostInit_ok_fields hb0).1
  · exact (amiBackupPostInit_ok_fields hb0).2.2.1

/-- One gathered task of `create_multiple_backups` always yields a backup for
a well-formed instance: the task's own backup on success, the synthetic
`Failed` record when the task raised. -/
theorem processBackupResultE_spec (i : Instance) (bt : BackupType)
    (cfg : BackupConfiguration) (r : CreateImageResult) (uid : String) (now : Nat)
    (hid : i.instanceId ≠ "") :
    ∃ b, processBackupResultE i bt cfg r uid now = .ok b ∧
      b.instanceId = i.instanceId ∧
      (∀ msg, r = .raises msg → b.status = BackupStatus.failed ∧
        b.errorMessage = some msg ∧ b.amiId = none) ∧
      (∀ a, r = .ok a → b.status = BackupStatus.creating ∧ b.amiId = some a) := by
  cases r with
  | raises msg =>
      obtain ⟨b, hb, hbid, hbst, hbmsg, hbami⟩ :=
        syntheticFailedBackupE_ok i bt msg uid now hid
      refine ⟨b, ?_, hbid, ?_, ?_⟩
      · unfold processBackupResultE
        rw [(createBackupE_error i bt cfg uid now hid).1 msg]
        exact hb
      · intro msg' hmsg'
        injection hmsg' with hmsg'
        subst hmsg'
        exact ⟨hbst, hbmsg, hbami⟩
      · intro a ha
        exact absurd ha (by simp)
  | noId =>
      obtain ⟨b, hb, hbid, hbst, hbmsg, hbami⟩ :=
        syntheticFailedBackupE_ok i bt "No AMI ID returned from create_image call"
          uid now hid
      refine ⟨b, ?_, hbid, ?_, ?_⟩
      · unfold processBackupResultE
        rw [(createBackupE_error i bt cfg uid now hid).2]
        exact hb
      · intro msg' hmsg'
        exact absurd hmsg' (by simp)
      · intro a ha
        exact absurd ha (by simp)
  | ok a =>
      obtain ⟨b, hb, hbid, hbst, hbami⟩ := createBackupE_ok i bt cfg uid now a hid
      refine ⟨b, ?_, hbid, ?_, ?_⟩
      · unfold processBackupResultE
        rw [hb]
      · intro msg' hmsg'
        exact absurd hmsg' (by simp)
      · intro a' ha'
        injection ha' with ha'
        subst ha'
        exact ⟨hbst, hbami⟩

/-- The gathered fan-out over a well-formed instance list never raises and
produces, in task order, one backup per instance, each recording its
instance's id, with the per-position outcome determined by that position's
external result. -/
theorem createBackupsGather_spec (bt : BackupType) (cfg : BackupConfiguration)
    (oracle : Nat → CreateImageResult) (uids : Nat → String) (now : Nat) :
    ∀ (l : List Instance) (k : Nat), (∀ i ∈ l, i.instanceId ≠ "") →
    ∃ bs, createBackupsGather bt cfg oracle uids now l k = .ok bs ∧
      bs.length = l.length ∧
      (∀ (j : Nat) (hj : j < bs.length) (hl : j < l.length),
        (bs.get ⟨j, hj⟩).instanceId = (l.get ⟨j, hl⟩).instanceId ∧
        (∀ msg, oracle (k + j) = .raises msg →
          (bs.get ⟨j, hj⟩).status = BackupStatus.failed ∧
          (bs.get ⟨j, hj⟩).errorMessage = some msg ∧
          (bs.get ⟨j, hj⟩).amiId = none) ∧
        (∀ a, oracle (k + j) = .ok a →
          (bs.get ⟨j, hj⟩).status = BackupStatus.creating ∧
          (bs.get ⟨j, hj⟩).amiId = some a)) := by
  intro l
  induction l with
  | nil =>
      intro k h
      refine ⟨[], rfl, rfl, ?_⟩
      intro j hj hl
      exact absurd hj (by simp)
  | cons i rest ih =>
      intro k h
      have hid : i.instanceId ≠ "" := h i (List.mem_cons_self i rest)
      obtain ⟨b, hb, hbid, hbraise, hbok⟩ :=
        processBackupResultE_spec i bt cfg (oracle k) (uids k) now hid
      obtain ⟨bs, hbs, hlen, hspec⟩ :=
        ih (k + 1) (fun x hx => h x (List.mem_cons_of_mem i hx))
      refine ⟨b :: bs, ?_, by simpa using hlen, ?_⟩
      · unfold createBackupsGather
        rw [hb, hbs]
      · intro j hj hl
        cases j with
        | zero =>
            refine ⟨hbid, ?_, ?_⟩
            · intro msg hmsg
              exact hbraise msg (by simpa using hmsg)
            · intro a ha
              exact hbok a (by simpa using ha)
        | succ j' =>
            have hj' : j' < bs.length := by simpa using hj
            have hl' : j' < rest.length := by simpa using hl
            have hidx : k + (j' + 1) = (k + 1) + j' := by omega
            have := hspec j' hj' hl'
            refine ⟨this.1, ?_, ?_⟩
            · intro msg hmsg
              exact this.2.1 msg (by rw [← hidx]; exact hmsg)
            · intro a ha
              exact this.2.2 a (by rw [← hidx]; exact ha)

/-- C6: for every input resource list (of well-formed instances),
`create_multiple_backups` returns a list whose length equals the number of
inputs with `requires_backup = true`, every returned backup belongs to one of
those filtered instances, and the result is empty exactly when no input
requires backup. -/
theorem createMultipleBackups_filter_spec (instances : List Instance)
    (bt : BackupType) (cfg : BackupConfiguration) (oracle : Nat → CreateImageResult)
    (uids : Nat → String) (now : Nat)
    (h : ∀ i ∈ instances, i.instanceId ≠ "") :
    ∃ bs, createMultipleBackups instances bt cfg oracle uids now = .ok bs ∧
      bs.length = (instances.filter Instance.requiresBackup).length ∧
      (∀ b ∈ bs, b.instanceId ∈
        (instances.filter Instance.requiresBackup).map Instance.instanceId) ∧
      ((instances.filter Instance.requiresBackup).isEmpty = true → bs = []) := by
  by_cases hemp : (instances.filter Instance.requiresBackup).isEmpty = true
  · refine ⟨[], ?_, ?_, ?_, fun _ => rfl⟩
    · unfold createMultipleBackups
      rw [if_pos hemp]
    · rw [List.isEmpty_iff] at hemp
      rw [hemp]
      rfl
    · intro b hb
      exact absurd hb (by simp)
  · obtain ⟨bs, hbs, hlen, hspec⟩ :=
      createBackupsGather_spec bt cfg oracle uids now
        (instances.filter Instance.requiresBackup) 0
        (fun i hi => h i (List.mem_of_mem_filter hi))
    refine ⟨bs, ?_, hlen, ?_, fun he => absurd he hemp⟩
    · unfold createMultipleBackups
      rw [if_neg hemp]
      exact hbs
    · intro b hb
      obtain ⟨⟨j, hj⟩, hget⟩ := List.mem_iff_get.mp hb
      have hl : j < (instances.filter Instance.requiresBackup).length := hlen ▸ hj
      have := (hspec j hj hl).1
      rw [hget] at this
      rw [this]
      exact List.mem_map_of_mem Instance.instanceId (List.get_mem _ _ _)

/-- Witness for C6 at a concrete fleet: of three discovered instances only
the two flagged `requires-backup` produce entries. -/
theorem createMultipleBackups_filter_spec_witness :
    ∃ bs, createMultipleBackups
        [sampleInstance,
         { instanceId := "i-nobackup", landingZone := "lz1", region := "r1",
           accountId := "a1", status := .running },
         { instanceId := "i-backup2", landingZone := "lz1", region := "r1",
           accountId := "a1", status := .stopped,
           tags := { backupRequired := some true } }]
        .prePatch {} (fun _ => .ok "ami-1") (fun k => "b-" ++ toString k) 0 = .ok bs ∧
      bs.length = ([sampleInstance,
         { instanceId := "i-nobackup", landingZone := "lz1", region := "r1",
           accountId := "a1", status := .running },
         { instanceId := "i-backup2", landingZone := "lz1", region := "r1",
           accountId := "a1", status := .stopped,
           tags := { backupRequired := some true } }].filter Instance.requiresBackup).length ∧
      (∀ b ∈ bs, b.instanceId ∈
        ([sampleInstance,
         { instanceId := "i-nobackup", landingZone := "lz1", region := "r1",
           accountId := "a1", status := .running },
         { instanceId := "i-backup2", landingZone := "lz1", region := "r1",
           accountId := "a1", status := .stopped,
           tags := { backupRequired := some true } }].filter Instance.requiresBackup).map
          Instance.instanceId) ∧
      (([sampleInstance,
         { instanceId := "i-nobackup", landingZone := "lz1", region := "r1",
           accountId := "a1", status := .running },
         { instanceId := "i-backup2", landingZone := "lz1", region := "r1",
           accountId := "a1", status := .stopped,
           tags := { backupRequired := some true } }].filter Instance.requiresBackup).isEmpty = true →
        bs = []) := by
  exact createMultipleBackups_filter_spec _ _ _ _ _ _ (by decide)

/-- C7: a per-resource `create_image` exception does not abort the batch —
the batch call still returns (never raises), the failing position yields a
synthetic terminal-`Failed` backup carrying the exception text and no
artifact id, and every position whose call succeeded yields a normal
`Creating` backup with its AMI id. -/
theorem createMultipleBackups_error_isolation (instances : List Instance)
    (bt : BackupType) (cfg : BackupConfiguration) (oracle : Nat → CreateImageResult)
    (uids : Nat → String) (now : Nat)
    (h : ∀ i ∈ instances, i.instanceId ≠ "") :
    ∃ bs, createMultipleBackups instances bt cfg oracle uids now = .ok bs ∧
      bs.length = (instances.filter Instance.requiresBackup).length ∧
      (∀ (j : Nat) (hj : j < bs.length),
        (∀ msg, oracle j = .raises msg →
          (bs.get ⟨j, hj⟩).status = BackupStatus.failed ∧
          (bs.get ⟨j, hj⟩).errorMessage = some msg ∧
          (bs.get ⟨j, hj⟩).amiId = none) ∧
        (∀ a, oracle j = .ok a →
          (bs.get ⟨j, hj⟩).status = BackupStatus.creating ∧
          (bs.get ⟨j, hj⟩).amiId = some a)) := by
  by_cases hemp : (instances.filter Instance.requiresBackup).isEmpty = true
  · refine ⟨[], ?_, ?_, ?_⟩
    · unfold createMultipleBackups
      rw [if_pos hemp]
    · rw [List.isEmpty_iff] at hemp
      rw [hemp]
      rfl
    · intro j hj
      exact absurd hj (by simp)
  · obtain ⟨bs, hbs, hlen, hspec⟩ :=
      createBackupsGather_spec bt cfg oracle uids now
        (instances.filter Instance.requiresBackup) 0
        (fun i hi => h i (List.mem_of_mem_filter hi))
    refine ⟨bs, ?_, hlen, ?_⟩
    · unfold createMultipleBackups
      rw [if_neg hemp]
      exact hbs
    · intro j hj
      have hl : j < (instances.filter Instance.requiresBackup).length := hlen ▸ hj
      have := hspec j hj hl
      refine ⟨?_, ?_⟩
      · intro msg hmsg
        exact this.2.1 msg (by simpa using hmsg)
      · intro a ha
        exact this.2.2 a (by simpa using ha)

/-- Witness for C7 at a concrete fleet: the first backup's `create_image`
raises a transport error, the second succeeds; the batch returns both, the
first `Failed` with the reason, the second `Creating` with its AMI id. -/
theorem createMultipleBackups_error_isolation_witness :
    ∃ bs, createMultipleBackups
        [sampleInstance,
         { instanceId := "i-backup2", landingZone := "lz1", region := "r1",
           accountId := "a1", status := .stopped,
           tags := { backupRequired := some true } }]
        .prePatch {}
        (fun k => if k = 0 then .raises "transport error" else .ok "ami-9")
        (fun k => "b-" ++ toString k) 0 = .ok bs ∧
      bs.length = ([sampleInstance,
         { instanceId := "i-backup2", landingZone := "lz1", region := "r1",
           accountId := "a1", status := .stopped,
           tags := { backupRequired := some true } }].filter Instance.requiresBackup).length ∧
      (∀ (j : Nat) (hj : j < bs.length),
        (∀ msg, (if j = 0 then CreateImageResult.raises "transport error"
            else CreateImageResult.ok "ami-9") = .raises msg →
          (bs.get ⟨j, hj⟩).status = BackupStatus.failed ∧
          (bs.get ⟨j, hj⟩).errorMessage = some msg ∧
          (bs.get ⟨j, hj⟩).amiId = none) ∧
        (∀ a, (if j = 0 then CreateImageResult.raises "transport error"
            else CreateImageResult.ok "ami-9") = .ok a →
          (bs.get ⟨j, hj⟩).status = BackupStatus.creating ∧
          (bs.get ⟨j, hj⟩).amiId = some a)) := by
  exact createMultipleBackups_error_isolation _ _ _ _ _ _ (by decide)

/-! ## C8 / C4 — `wait_for_state` -/

/-- If the loop keeps polling up to position `j` (earlier polls neither reach
the target nor hit an error state) and poll `j` observes an error state that
is not the target, the loop exits with `invalid j`. -/
theorem waitStateLoop_failFast (target : InstanceStatus)
    (resp : Nat → DescribeInstanceResult) :
    ∀ (j fuel k : Nat), j < fuel →
    (∀ i, i < j → getInstanceState (resp (k + i)) ≠ target ∧
      getInstanceState (resp (k + i)) ≠ InstanceStatus.terminated ∧
      getInstanceState (resp (k + i)) ≠ InstanceStatus.unknown) →
    (getInstanceState (resp (k + j)) = InstanceStatus.terminated ∨
      getInstanceState (resp (k + j)) = InstanceStatus.unknown) →
    getInstanceState (resp (k + j)) ≠ target →
    waitStateLoop target resp k fuel = .invalid (k + j) := by
  intro j
  induction j with
  | zero =>
      intro fuel k hfuel hbefore hinv hne
      cases fuel with
      | zero => exact absurd hfuel (by omega)
      | succ f =>
          unfold waitStateLoop
          rw [Nat.add_zero] at hinv hne
          rw [if_neg hne, if_pos hinv]
          rw [Nat.add_zero]
  | succ j' ih =>
      intro fuel k hfuel hbefore hinv hne
      cases fuel with
      | zero => exact absurd hfuel (by omega)
      | succ f =>
          unfold waitStateLoop
          have h0 := hbefore 0 (by omega)
          rw [Nat.add_zero] at h0
          rw [if_neg h0.1, if_neg (by push_neg; exact h0.2)]
          have hshift : k + (j' + 1) = (k + 1) + j' := by omega
          rw [hshift] at hinv hne
          have := ih f (k + 1) (by omega)
            (fun i hi => by
              have := hbefore (i + 1) (by omega)
              have hs : k + (i + 1) = (k + 1) + i := by omega
              rw [hs] at this
              exact this)
            hinv hne
          rw [this, hshift]

/-- C8: whenever a poll of `wait_for_state` observes an error state
(Terminated or Unknown, line 293) different from the target — all earlier
polls having continued the loop — the wait returns failure at that very poll,
at clock `15 * j`, strictly before the `60 * m` deadline. -/
theorem waitForState_failFast (target : InstanceStatus)
    (resp : Nat → DescribeInstanceResult) (m j : Nat) (hj : j < 4 * m)
    (hbefore : ∀ i, i < j → getInstanceState (resp i) ≠ target ∧
      getInstanceState (resp i) ≠ InstanceStatus.terminated ∧
      getInstanceState (resp i) ≠ InstanceStatus.unknown)
    (hinv : getInstanceState (resp j) = InstanceStatus.terminated ∨
      getInstanceState (resp j) = InstanceStatus.unknown)
    (hne : getInstanceState (resp j) ≠ target) :
    waitForState target resp m = .invalid j ∧ 15 * j < 60 * m ∧
    (waitForState target resp m).toBool = false := by
  have hmain := waitStateLoop_failFast target resp j (4 * m) 0 hj
    (fun i hi => by simpa using hbefore i hi)
    (by simpa using hinv) (by simpa using hne)
  rw [Nat.zero_add] at hmain
  unfold waitForState
  refine ⟨hmain, by omega, ?_⟩
  rw [hmain]
  rfl

/-- Witness for C8: waiting for Running with a 1-minute deadline, the first
poll sees `pending` (continue) and the second sees `terminated`; the wait
fails at poll 1 — 15 s in, well before the 60 s deadline. -/
theorem waitForState_failFast_witness :
    waitForState InstanceStatus.running
        (fun k => if k = 0 then .ok "pending" else .ok "terminated") 1 =
      .invalid 1 ∧ 15 * 1 < 60 * 1 ∧
    (waitForState InstanceStatus.running
        (fun k => if k = 0 then .ok "pending" else .ok "terminated") 1).toBool = false := by
  exact waitForState_failFast InstanceStatus.running _ 1 1 (by omega)
    (by decide) (by decide) (by decide)

/-- The poll trace of the C4 counterexample: the describe call raises a
transient transport error at the very first poll and would report `running`
at every later one. -/
def transientThenRunning : Nat → DescribeInstanceResult :=
  fun k => if k = 0 then .raises else .ok "running"

/-- C4 counterexample: a transient describe error at the first poll *does*
terminate `wait_for_state` with failure immediately — `get_instance_state`
catches the exception and returns `Unknown` (lines 209–211), which
`wait_for_state` treats as an error state (line 293) — even though every
subsequent poll would have reported the target state and the 10-minute
deadline (40 polls) was nowhere near. -/
theorem waitForState_transient_error_fails_immediately :
    waitForState InstanceStatus.running transientThenRunning 10 = .invalid 0 ∧
    (waitForState InstanceStatus.running transientThenRunning 10).toBool = false ∧
    getInstanceState (transientThenRunning 1) = InstanceStatus.running := by
  exact ⟨rfl, rfl, rfl⟩

/-- C4 amended: a transient error while polling is absorbed only in the sense
that no exception propagates — `get_instance_state` maps it to `Unknown`, and
`wait_for_state` treats `Unknown` as an error state and returns failure at
that poll (here the first), long before the deadline, instead of continuing
the loop. -/
theorem waitForState_transient_error_failfast (target : InstanceStatus)
    (resp : Nat → DescribeInstanceResult) (m : Nat) (hm : 0 < m)
    (ht : target ≠ InstanceStatus.unknown) (h0 : resp 0 = .raises) :
    getInstanceState DescribeInstanceResult.raises = InstanceStatus.unknown ∧
    waitForState target resp m = .invalid 0 ∧
    (waitForState target resp m).toBool = false := by
  obtain ⟨n, hn⟩ : ∃ n, 4 * m = n + 1 := ⟨4 * m - 1, by omega⟩
  unfold waitForState
  rw [hn]
  unfold waitStateLoop
  rw [h0]
  rw [if_neg (fun hh => ht hh.symm),
    if_pos (show getInstanceState DescribeInstanceResult.raises =
        InstanceStatus.terminated ∨
      getInstanceState DescribeInstanceResult.raises = InstanceStatus.unknown
      from Or.inr rfl)]
  exact ⟨rfl, rfl, rfl⟩

/-- Witness for C4 amended at the concrete counterexample trace. -/
theorem waitForState_transient_error_failfast_witness :
    getInstanceState DescribeInstanceResult.raises = InstanceStatus.unknown ∧
    waitForState InstanceStatus.running transientThenRunning 10 = .invalid 0 ∧
    (waitForState InstanceStatus.running transientThenRunning 10).toBool = false := by
  exact waitForState_transient_error_failfast InstanceStatus.running
    transientThenRunning 10 (by omega) (by decide) rfl

/-! ## C3 — single-resource stop/start versus eligibility -/

/-- An instance that is already in its target power state for Stop. -/
def stoppedInstance : Instance :=
  { instanceId := "i-0stopped", landingZone := "lz1", region := "ap-southeast-2",
    accountId := "123456789012", status := .stopped }

/-- Embeds `stop_instance` always raises the context-construction `TypeError` and
issues no external call (helper shared by the C3 theorems). -/
theorem stopInstance_raises_typeError (inst : Instance) (force : Bool)
    (uid : String) (now : Nat) :
    stopInstance inst force uid now = (.exn operationContextInitTypeError, []) := by
  unfold stopInstance
  rw [if_neg (by decide)]

/-- C3 counterexample: `stop_instance` on a resource already `Stopped` does
*not* return an immediate `Completed` no-op result (nor a `Failed` result
with an incorrect-state reason): it raises `TypeError` while constructing the
`OperationContext` (whose dataclass has none of the keyword arguments passed
at server_manager_service.py lines 57–63), returning no result at all —
though indeed without issuing any external call. -/
theorem stopInstance_on_stopped_returns_no_result :
    stopInstance stoppedInstance false "op-1" 0 =
      (.exn operationContextInitTypeError, []) := by
  exact stopInstance_raises_typeError stoppedInstance false "op-1" 0

/-- C3 amended: the single-resource Stop/Start path performs no eligibility
check at all.  (a)/(b) `stop_instance` and `start_instance` raise `TypeError`
constructing the `OperationContext` before any external call, for every
instance regardless of its state; (c) the underlying
`_execute_stop_operation` never consults the instance state either — it
raises `AttributeError` reading `context.force` and issues no call (had the
field existed it would have issued the stop unconditionally); (d) eligibility
filtering exists only in the batch `stop_multiple_instances`, which silently
drops ineligible instances, returning *no* result for them rather than a
`Completed` no-op; (e) instances that pass the batch filter get a synthetic
`Failed` result carrying the `TypeError` text. -/
theorem stopStart_no_eligibility_check :
    (∀ (inst : Instance) (force : Bool) (uid : String) (now : Nat),
      stopInstance inst force uid now = (.exn operationContextInitTypeError, [])) ∧
    (∀ (inst : Instance) (uid : String) (now : Nat),
      startInstance inst uid now = (.exn operationContextInitTypeError, [])) ∧
    (∀ (op : ServerOperation) (now : Nat),
      (executeStopOperation op now).2 = [] ∧
      ∃ m, (executeStopOperation op now).1 = PyOutcome.exn m) ∧
    (∀ (insts : List Instance) (force : Bool) (uids : Nat → String) (now : Nat),
      (∀ i ∈ insts, i.status ≠ InstanceStatus.running ∧
        i.status ≠ InstanceStatus.pending) →
      stopMultipleInstances insts force uids now = ([], [])) ∧
    (∀ (inst : Instance) (force : Bool) (uids : Nat → String) (now : Nat),
      inst.status = InstanceStatus.running →
      stopMultipleInstances [inst] force uids now =
        ([mkOperationResult ("stop_" ++ inst.instanceId ++ "_" ++ strftimeHuman now)
            .stop inst.instanceId .failed (some operationContextInitTypeError) now],
         [])) := by
  refine ⟨stopInstance_raises_typeError, ?_, ?_, ?_, ?_⟩
  · intro inst uid now
    unfold startInstance
    rw [if_neg (by decide)]
  · intro op now
    unfold executeStopOperation
    cases hctx : op.context with
    | none => exact ⟨rfl, "AttributeError: 'NoneType' object has no attribute 'force'", rfl⟩
    | some c =>
        refine ⟨?_, "AttributeError: 'OperationContext' object has no attribute 'force'", ?_⟩ <;>
          (unfold pyContextGetForce; rw [if_neg (by decide)])
  · intro insts force uids now h
    unfold stopMultipleInstances
    have hfil : insts.filter
        (fun i => i.status == InstanceStatus.running ||
          i.status == InstanceStatus.pending) = [] := by
      rw [List.filter_eq_nil_iff]
      intro a ha
      have := h a ha
      simp [this.1, this.2]
    rw [hfil]
    rfl
  · intro inst force uids now hrun
    unfold stopMultipleInstances
    have hfil : [inst].filter
        (fun i => i.status == InstanceStatus.running ||
          i.status == InstanceStatus.pending) = [inst] := by
      simp [List.filter, hrun]
    rw [hfil]
    rw [if_neg (by simp)]
    have hone := stopInstance_raises_typeError inst force (uids 0) now
    unfold stopMultipleGather
    rw [hone]
    rfl

/-- Witness for C3 amended at concrete inputs: the stopped instance gets the
`TypeError` (no result, no call), a batch over only the stopped instance
returns nothing at all, and a running instance in a batch gets a synthetic
`Failed` result. -/
theorem stopStart_no_eligibility_check_witness :
    stopInstance stoppedInstance true "op-2" 5 =
      (.exn operationContextInitTypeError, []) ∧
    ((executeStopOperation
        { operationId := "op-3", operationType := .stop, instanceId := "i-0stopped",
          createdTime := 0, context := some {} } 0).2 = [] ∧
      ∃ m, (executeStopOperation
        { operationId := "op-3", operationType := .stop, instanceId := "i-0stopped",
          createdTime := 0, context := some {} } 0).1 = PyOutcome.exn m) ∧
    stopMultipleInstances [stoppedInstance] false (fun _ => "op-4") 0 = ([], []) ∧
    stopMultipleInstances [sampleInstance] false (fun _ => "op-5") 7 =
      ([mkOperationResult ("stop_" ++ sampleInstance.instanceId ++ "_" ++ strftimeHuman 7)
          .stop sampleInstance.instanceId .failed (some operationContextInitTypeError) 7],
       []) := by
  refine ⟨?_, ?_, ?_, ?_⟩
  · exact stopStart_no_eligibility_check.1 stoppedInstance true "op-2" 5
  · exact stopStart_no_eligibility_check.2.2.1 _ 0
  · exact stopStart_no_eligibility_check.2.2.2.1 [stoppedInstance] false _ 0
      (by decide)
  · exact stopStart_no_eligibility_check.2.2.2.2 sampleInstance false _ 7 (by decide)

/-! ## C1 — workflow continue-on-error and partial success -/

/-- A phase-body environment in which the Backup phase fails systemically and
every other phase body succeeds. -/
def envBackupFails : WorkflowPhase → Option String :=
  fun p => if p = WorkflowPhase.amiBackup then
    some "Systemic backup failure: EC2 unreachable" else none

/-- C1 counterexample: a workflow run with `continue_on_error = true` whose
Backup phase would fail systemically never reaches any phase at all, let
alone a `PartialSuccess` marking — `run_prepatch_workflow` raises `TypeError`
while constructing its `WorkflowResult` (the call at
workflow_orchestrator.py lines 64–71 passes the keyword arguments
`config_file` and `phases`, which the dataclass does not have), so no
`WorkflowResult` with status `PartialSuccess` (or any status) is produced. -/
theorem prepatch_workflow_crashes_before_phases :
    runPrepatchWorkflow true [] envBackupFails "wf-1" 0 =
      .exn "TypeError: __init__() got an unexpected keyword argument 'config_file'" := by
  rfl

/-- C1 amended: (a) with a valid configuration, `run_prepatch_workflow`
always raises the `WorkflowResult`-construction `TypeError` before any phase
runs, for every `continue_on_error` value and phase environment; (b) the
phase runner `run_workflow_phase` does catch a failing phase body and records
a `Failed` `PhaseResult` without re-raising (so a phase failure would not
abort subsequent phases); (c) the final marking of lines 87–105 can only
produce `Completed` or `Failed` — `mark_partial_success` is never invoked, so
no run can end `PartialSuccess`. -/
theorem prepatch_workflow_amended :
    (∀ (coe : Bool) (env : WorkflowPhase → Option String) (wfId : String) (now : Nat),
      runPrepatchWorkflow coe [] env wfId now =
        .exn "TypeError: __init__() got an unexpected keyword argument 'config_file'") ∧
    (∀ (env : WorkflowPhase → Option String) (phase : WorkflowPhase) (now : Nat),
      ∃ pr, runWorkflowPhase false env phase now = .ok pr ∧
        (phaseBodyOutcome env phase = none → pr.status = PhaseStatus.completed) ∧
        (∀ e, phaseBodyOutcome env phase = some e →
          pr.status = PhaseStatus.failed ∧ pr.errorMessage = some e)) ∧
    (∀ o : Except String Unit, finalWorkflowStatus o ≠ WorkflowStatus.partialSuccess) := by
  refine ⟨?_, ?_, ?_⟩
  · intro coe env wfId now
    rfl
  · intro env phase now
    unfold runWorkflowPhase
    rw [if_neg (by simp)]
    cases hout : phaseBodyOutcome env phase with
    | none =>
        refine ⟨_, rfl, fun _ => rfl, ?_⟩
        intro e he
        exact absurd he (by simp)
    | some e =>
        refine ⟨_, rfl, ?_, ?_⟩
        · intro he
          exact absurd he (by simp)
        · intro e' he'
          injection he' with he'
          subst he'
          exact ⟨rfl, rfl⟩
  · intro o
    cases o <;> simp [finalWorkflowStatus]

/-- Witness for C1 amended at concrete inputs: the `continue_on_error = true`
run with a systemically failing Backup phase raises the `TypeError`; the
Backup phase runner records a `Failed` phase result with the systemic reason
without raising; and a failed phase execution marks the workflow `Failed`,
never `PartialSuccess`. -/
theorem prepatch_workflow_amended_witness :
    runPrepatchWorkflow true [] envBackupFails "wf-1" 0 =
      .exn "TypeError: __init__() got an unexpected keyword argument 'config_file'" ∧
    (∃ pr, runWorkflowPhase false envBackupFails WorkflowPhase.amiBackup 3 = .ok pr ∧
      (phaseBodyOutcome envBackupFails WorkflowPhase.amiBackup = none →
        pr.status = PhaseStatus.completed) ∧
      (∀ e, phaseBodyOutcome envBackupFails WorkflowPhase.amiBackup = some e →
        pr.status = PhaseStatus.failed ∧ pr.errorMessage = some e)) ∧
    finalWorkflowStatus (.error "systemic failure") ≠ WorkflowStatus.partialSuccess := by
  refine ⟨?_, ?_, ?_⟩
  · exact prepatch_workflow_amended.1 true envBackupFails "wf-1" 0
  · exact prepatch_workflow_amended.2.1 envBackupFails WorkflowPhase.amiBackup 3
  · exact prepatch_workflow_amended.2.2 (.error "systemic failure")

end Patching
